import Mathlib

/-
  Verification development for the GenAI Task Manager reminder subsystem.

  Embedded sources:
  - backend/services/reminder_service.py (parse, format, schedule, remove)
  - backend/services/scheduler.py        (TaskScheduler.get_scheduler_status)
  - backend/routes/task_routes.py        (delete_task, update_task)
  - backend/app.py                       (health_check)

  External libraries (apscheduler, dateutil, flask_mail, twilio) are modelled
  by their interface behaviour as the code relies on it; every control-flow
  decision of the embedded functions follows the Python source line by line.
-/

namespace TaskManager

/-- A Python value in an identifier position (`task_dict.get("id")` may yield
an int, a str, or None when the key is missing). -/
inductive PVal where
  | none
  | int (n : Int)
  | str (s : String)
deriving DecidableEq, Repr

/-- Python truthiness: None, 0 and the empty string are falsy. -/
def PVal.truthy : PVal → Bool
  | .none => false
  | .int n => n != 0
  | .str s => s != ""

/-- Python f-string rendering of a value, as in `f"reminder_task_\x7btask_id\x7d"`. -/
def PVal.render : PVal → String
  | .none => "None"
  | .int n => toString n
  | .str s => s

/-- `_job_id_for_task` from reminder_service.py. -/
def job_id_for_task (task_id : PVal) : String :=
  "reminder_task_" ++ task_id.render

/-- A timezone-naive wall-clock datetime (what `_parse_deadline` returns). -/
structure DT where
  year : Nat
  month : Nat
  day : Nat
  hour : Nat
  minute : Nat
deriving DecidableEq, Repr

/-- Gregorian leap-year rule. -/
def isLeap (y : Nat) : Bool :=
  (y % 4 == 0 && y % 100 != 0) || y % 400 == 0

def daysInMonth (y m : Nat) : Nat :=
  if m == 2 then (if isLeap y then 29 else 28)
  else if m == 4 || m == 6 || m == 9 || m == 11 then 30
  else 31

/-- Days in months strictly before month `m` of year `y`. -/
def daysBeforeMonth (y m : Nat) : Nat :=
  (List.range m).foldl (fun acc i => if i == 0 then acc else acc + daysInMonth y i) 0

/-- Days in all years strictly before year `y` (proleptic Gregorian). -/
def daysBeforeYear (y : Nat) : Nat :=
  let p := y - 1
  365 * p + p / 4 - p / 100 + p / 400

/-- Minutes on an absolute timeline; models chronological comparison and
`timedelta` arithmetic on Python datetimes. -/
def DT.toMin (d : DT) : Int :=
  ((daysBeforeYear d.year + daysBeforeMonth d.year d.month + (d.day - 1)) * 1440
    + d.hour * 60 + d.minute : Nat)

def pad2 (n : Nat) : String :=
  if n < 10 then "0" ++ toString n else toString n

/-- `_format_dt` from reminder_service.py: `strftime("%d-%m-%Y %I:%M %p")`,
with "No deadline" for a falsy value. -/
def format_dt : Option DT → String
  | Option.none => "No deadline"
  | some d =>
    let h := d.hour % 12
    let h12 := if h == 0 then 12 else h
    let ampm := if d.hour < 12 then "AM" else "PM"
    pad2 d.day ++ "-" ++ pad2 d.month ++ "-" ++ toString d.year ++ " "
      ++ pad2 h12 ++ ":" ++ pad2 d.minute ++ " " ++ ampm

/-- A raw deadline value as received from a task payload. The dateutil parser
is an external library; a raw value is classified by whether it denotes a
datetime: absent/falsy, a string the parser rejects, or a parseable value
denoting the datetime `dt`. -/
inductive DeadlineInput where
  | none
  | malformed (raw : String)
  | valid (dt : DT)
deriving DecidableEq, Repr

/-- `_parse_deadline` from reminder_service.py: falsy values and unparseable
strings give None; datetimes and parseable strings give the datetime. -/
def parse_deadline : DeadlineInput → Option DT
  | .none => Option.none
  | .malformed _ => Option.none
  | .valid dt => some dt

/-- One APScheduler job as added by `schedule_task_reminder`: a one-shot
"date"-trigger job with the dispatch arguments captured at scheduling time. -/
structure Job where
  jobId : String
  runDate : Int
  userEmail : Option String
  userWhatsapp : Option String
  title : String
  deadlineStr : String
deriving DecidableEq, Repr

/-- The BackgroundScheduler with its in-memory job store. `addFails` models a
timer-backend failure raised by `add_job` (the except branch of the source). -/
structure SchedulerState where
  jobs : List Job
  addFails : Bool
deriving DecidableEq, Repr

/-- `add_job` with `replace_existing=True`: an existing job with the same id
is replaced by the new one. -/
def add_job (s : SchedulerState) (j : Job) : SchedulerState :=
  { s with jobs := s.jobs.filter (fun x => x.jobId != j.jobId) ++ [j] }

/-- Number of live jobs in the job store. -/
def pending_count (s : SchedulerState) : Nat := s.jobs.length

/-- Number of live jobs whose id is the reminder-job id of `task_id`. -/
def pending_count_for (s : SchedulerState) (task_id : PVal) : Nat :=
  (s.jobs.filter (fun j => j.jobId == job_id_for_task task_id)).length

inductive LogLevel where
  | info
  | warning
  | error
deriving DecidableEq, Repr

structure LogEntry where
  level : LogLevel
  msg : String
deriving DecidableEq, Repr

/-- The plain dict accepted by `schedule_task_reminder`. A missing key read
with `.get` yields None, so an absent id field is `PVal.none` and an absent
title is `Option.none` (the source substitutes "Untitled Task"). -/
structure TaskDict where
  id : PVal
  mongoId : PVal
  title : Option String
  deadline : DeadlineInput
  user_email : Option String
  user_whatsapp : Option String
deriving DecidableEq, Repr

/-- `schedule_task_reminder(app, task_dict)` from reminder_service.py.
The global `_scheduler` is passed as `sched` (None before `start_scheduler`);
`now` is `datetime.now()` on the minute timeline. The result is the new
scheduler state and the log entries emitted; the Lean function is total,
mirroring that the source returns normally on every path (all backend
exceptions are caught by the try/except around `add_job`). -/
def schedule_task_reminder (now : Int) (sched : Option SchedulerState)
    (t : TaskDict) : Option SchedulerState × List LogEntry :=
  let task_id := if t.id.truthy then t.id else t.mongoId
  if ¬ task_id.truthy then
    (sched, [⟨.warning, "[Scheduler] Missing task_id; cannot schedule."⟩])
  else
    match parse_deadline t.deadline with
    | Option.none =>
      (sched, [⟨.warning, "[Scheduler] No/invalid deadline for task "
        ++ task_id.render ++ "; skipping."⟩])
    | some deadline_dt =>
      let reminder_time := deadline_dt.toMin - 30
      if reminder_time ≤ now then
        (sched, [⟨.warning, "[Scheduler] Reminder time already passed for task "
          ++ task_id.render ++ "; skipping."⟩])
      else
        let job_id := job_id_for_task task_id
        match sched with
        | Option.none =>
          -- _scheduler is None: the attribute access raises inside the try
          -- block and the except branch logs an error
          (Option.none, [⟨.error, "[Scheduler] Failed to add job for task "
            ++ task_id.render⟩])
        | some s =>
          if s.addFails then
            (some s, [⟨.error, "[Scheduler] Failed to add job for task "
              ++ task_id.render⟩])
          else
            (some (add_job s
              ⟨job_id, reminder_time, t.user_email, t.user_whatsapp,
                t.title.getD "Untitled Task", format_dt (some deadline_dt)⟩),
             [⟨.info, "[Scheduler] Reminder scheduled for task "
               ++ task_id.render⟩])

/-- `remove_task_reminder(task_id)` from reminder_service.py: returns at once
when the scheduler was never started; otherwise `remove_job` removes the job
when present, and the `JobLookupError` it raises when absent is swallowed by
the bare except. Total on every path. -/
def remove_task_reminder (sched : Option SchedulerState) (task_id : PVal) :
    Option SchedulerState × List LogEntry :=
  match sched with
  | Option.none => (Option.none, [])
  | some s =>
    let job_id := job_id_for_task task_id
    if s.jobs.any (fun j => j.jobId == job_id) then
      (some { s with jobs := s.jobs.filter (fun j => j.jobId != job_id) },
       [⟨.info, "[Scheduler] Removed job " ++ job_id⟩])
    else
      (some s, [])

/-- The dispatch environment: whether each collaborator raises when invoked,
the MAIL_SUPPRESS_SEND config flag, and whether the WhatsAppService import
succeeded. -/
structure Env where
  emailRaises : Bool
  whatsappRaises : Bool
  mailSuppressSend : Bool
  whatsappServiceAvailable : Bool
deriving DecidableEq, Repr

/-- The observable outcome of one dispatch: every invocation of the email
collaborator (recipient, subject, body), every invocation of the WhatsApp
collaborator (number, message), and the log entries. -/
structure DispatchResult where
  emailSends : List (String × String × String)
  whatsappSends : List (String × String)
  log : List LogEntry
deriving DecidableEq, Repr

/-- `_send_email` from reminder_service.py: early return on a falsy
recipient; `mail.send` is skipped under MAIL_SUPPRESS_SEND; an exception
raised by the send is caught and logged as an error. -/
def send_email (env : Env) (subject recipient body : String) : DispatchResult :=
  if recipient == "" then ⟨[], [], []⟩
  else if env.mailSuppressSend then
    ⟨[], [], [⟨.info, "[ReminderEmail] (suppressed) Sent to " ++ recipient
      ++ ": " ++ subject⟩]⟩
  else if env.emailRaises then
    ⟨[(recipient, subject, body)], [], [⟨.error, "[ReminderEmail] Failed"⟩]⟩
  else
    ⟨[(recipient, subject, body)], [],
     [⟨.info, "[ReminderEmail] Sent to " ++ recipient ++ ": " ++ subject⟩]⟩

/-- `_send_whatsapp` from reminder_service.py: early return on a falsy
number or an unavailable WhatsAppService; an exception raised by the send is
caught and logged as an error. -/
def send_whatsapp (env : Env) (to_number : Option String) (message : String) :
    DispatchResult :=
  match to_number with
  | Option.none => ⟨[], [], []⟩
  | some n =>
    if n == "" || ¬ env.whatsappServiceAvailable then ⟨[], [], []⟩
    else if env.whatsappRaises then
      ⟨[], [(n, message)], [⟨.error, "[ReminderWhatsApp] Failed"⟩]⟩
    else
      ⟨[], [(n, message)], [⟨.info, "[ReminderWhatsApp] Sent to " ++ n⟩]⟩

/-- `_reminder_job` from reminder_service.py: the email channel is attempted
first (recipient defaulted with `user_email or ""`), then the WhatsApp
channel; both helpers catch their own exceptions, so the job callback is
total. -/
def reminder_job (env : Env) (user_email user_whatsapp : Option String)
    (task_title deadline_str : String) : DispatchResult :=
  let r1 := send_email env
    ("⏰ Task Reminder: " ++ task_title)
    (user_email.getD "")
    ("Reminder: Your task \x27" ++ task_title ++ "\x27 is due at "
      ++ deadline_str ++ ".")
  let r2 := send_whatsapp env user_whatsapp
    ("⏰ *Task Reminder*\n\n*Title:* " ++ task_title ++ "\n*Due:* "
      ++ deadline_str)
  ⟨r1.emailSends ++ r2.emailSends, r1.whatsappSends ++ r2.whatsappSends,
   r1.log ++ r2.log⟩

/-- Modelled from the spec: APScheduler is an external timer engine; a job
added with the one-shot "date" trigger is removed from the job store when its
fire time elapses, and its callback then runs. Removal does not depend on the
outcome of the callback (at-most-once delivery attempt, no retry). -/
def fire_job (env : Env) (s : SchedulerState) (jobId : String) :
    SchedulerState × DispatchResult :=
  match s.jobs.find? (fun j => j.jobId == jobId) with
  | Option.none => (s, ⟨[], [], []⟩)
  | some j =>
    ({ s with jobs := s.jobs.filter (fun x => x.jobId != jobId) },
     reminder_job env j.userEmail j.userWhatsapp j.title j.deadlineStr)

/-- A stored task as seen by the status scan in scheduler.py: only the
deadline (a datetime or not) and the status string matter there. -/
structure TaskRec where
  deadline : Option Int
  status : String
deriving DecidableEq, Repr

/-- The record returned by `TaskScheduler.get_scheduler_status`. -/
structure SchedulerStatus where
  running : Bool
  jobs_count_hint : Nat
  note : String
deriving DecidableEq, Repr

/-- `TaskScheduler.get_scheduler_status` from scheduler.py: counts the
non-completed tasks whose datetime deadline lies in (now, now + 24h] and
returns `running = True` unconditionally; the job store is not consulted. -/
def get_scheduler_status (now : Int) (tasks : List TaskRec) : SchedulerStatus :=
  let upcoming := tasks.filter (fun t =>
    match t.deadline with
    | some d => decide (now < d) && decide (d ≤ now + 1440)
        && (t.status != "completed")
    | Option.none => false)
  ⟨true, upcoming.length, "Jobs are managed by services.reminder_service"⟩

/-- The JSON payload of the `/api/health` endpoint in app.py. -/
structure HealthPayload where
  status : String
  message : String
  scheduler_status : SchedulerStatus
deriving DecidableEq, Repr

/-- `health_check` from app.py: surfaces `get_scheduler_status` inside the
health payload with HTTP 200. -/
def health_check (now : Int) (tasks : List TaskRec) : HealthPayload × Nat :=
  (⟨"healthy", "GenAI Task Manager API is running",
    get_scheduler_status now tasks⟩, 200)

/-- A persisted Task document, restricted to the fields the embedded routes
read or write. -/
structure TaskModel where
  id : Nat
  user_id : Nat
  title : String
  description : String
  priority : String
  category : String
  status : String
  deadline : Option DT
deriving DecidableEq, Repr

/-- A persisted User document, restricted to the fields the routes read. -/
structure UserRec where
  id : Nat
  email : Option String
  whatsapp_number : Option String
deriving DecidableEq, Repr

/-- The application state the task routes act on: the task table, the user
table, and the global reminder scheduler. -/
structure AppState where
  tasks : List TaskModel
  users : List UserRec
  sched : Option SchedulerState
deriving DecidableEq, Repr

/-- `delete_task` from task_routes.py: ownership check, then `task.delete()`
on the document store. No call into the reminder service occurs on this
path. Returns the new state and the HTTP status code. -/
def delete_task (st : AppState) (user_id task_id : Nat) : AppState × Nat :=
  match st.tasks.find? (fun t => t.id == task_id) with
  | Option.none => (st, 404)
  | some task =>
    if task.user_id != user_id then (st, 404)
    else ({ st with tasks := st.tasks.filter (fun t => t.id != task_id) }, 200)

/-- The JSON body of a task update request: a field is `some v` when the key
is present. A present deadline key carries a raw `DeadlineInput`. -/
structure UpdateData where
  title : Option String
  description : Option String
  priority : Option String
  category : Option String
  status : Option String
  deadline : Option DeadlineInput
deriving DecidableEq, Repr

/-- Setting one scalar field as the update loop does:
`(data.get(key) or "").strip()` applied only when the key is present. -/
def applyField (new : Option String) (old : String) : String :=
  (new.map String.trim).getD old

/-- `update_task` from task_routes.py: ownership check; scalar fields and the
deadline are overwritten from the request; when the deadline changed (at
least one of old/new present and they differ), `schedule_task_reminder` is
called with the updated task dict (user contact data attached when present).
No cancellation call exists on any path. -/
def update_task (now : Int) (st : AppState) (user_id task_id : Nat)
    (data : UpdateData) : AppState × Nat :=
  match st.tasks.find? (fun t => t.id == task_id) with
  | Option.none => (st, 404)
  | some task =>
    if task.user_id != user_id then (st, 404)
    else
      let original_deadline := task.deadline
      let task1 : TaskModel := { task with
        title := applyField data.title task.title,
        description := applyField data.description task.description,
        priority := applyField data.priority task.priority,
        category := applyField data.category task.category,
        status := applyField data.status task.status }
      let task2 : TaskModel :=
        match data.deadline with
        | Option.none => task1
        | some raw => { task1 with deadline := parse_deadline raw }
      let newTasks := st.tasks.map (fun t => if t.id == task_id then task2 else t)
      if (original_deadline.isSome ∨ task2.deadline.isSome)
          ∧ original_deadline ≠ task2.deadline then
        let user := st.users.find? (fun u => u.id == user_id)
        let tdict : TaskDict :=
          { id := PVal.int task2.id,
            mongoId := PVal.none,
            title := some task2.title,
            deadline := match task2.deadline with
              | some dt => DeadlineInput.valid dt
              | Option.none => DeadlineInput.none,
            user_email := user.bind (fun u => u.email),
            user_whatsapp := user.bind (fun u => u.whatsapp_number) }
        let r := schedule_task_reminder now st.sched tdict
        ({ tasks := newTasks, users := st.users, sched := r.1 }, 200)
      else
        ({ tasks := newTasks, users := st.users, sched := st.sched }, 200)

/- ------------------------------------------------------------------ -/
/- Helper lemmas                                                       -/
/- ------------------------------------------------------------------ -/

lemma filter_eq_of_filter_ne (a : String) (l : List Job) :
    (l.filter (fun x => x.jobId != a)).filter (fun x => x.jobId == a) = [] := by
  induction l with
  | nil => rfl
  | cons x t ih =>
    by_cases h : x.jobId = a
    · simp [List.filter_cons, h, ih]
    · simp [List.filter_cons, h, ih]

lemma filter_ne_filter_eq_comm (a b : String) (h : b ≠ a) (l : List Job) :
    (l.filter (fun x => x.jobId != a)).filter (fun x => x.jobId == b) =
      l.filter (fun x => x.jobId == b) := by
  induction l with
  | nil => rfl
  | cons x t ih =>
    by_cases hx : x.jobId = a
    · have hb : ¬ x.jobId = b := by
        rw [hx]
        exact fun hh => h hh.symm
      simp [List.filter_cons, hx, hb, ih, Ne.symm h]
    · simp [List.filter_cons, hx, ih]

lemma filter_ne_of_not_any (a : String) (l : List Job)
    (h : l.any (fun j => j.jobId == a) = false) :
    l.filter (fun x => x.jobId != a) = l := by
  induction l with
  | nil => rfl
  | cons x t ih =>
    simp only [List.any_cons, Bool.or_eq_false_iff] at h
    have hne : ¬ x.jobId = a := by simpa using h.1
    simp [List.filter_cons, hne, ih h.2]

lemma add_job_filter_self (s : SchedulerState) (j : Job) :
    ((add_job s j).jobs.filter (fun x => x.jobId == j.jobId)) = [j] := by
  simp [add_job, List.filter_append, filter_eq_of_filter_ne]

lemma add_job_addFails (s : SchedulerState) (j : Job) :
    (add_job s j).addFails = s.addFails := rfl

/-- Successful-path characterization of `schedule_task_reminder`. -/
lemma schedule_success (now : Int) (s : SchedulerState)
    (hfail : s.addFails = false) (t : TaskDict) (d : DT)
    (htid : (if t.id.truthy then t.id else t.mongoId).truthy = true)
    (hd : t.deadline = DeadlineInput.valid d)
    (hf : now < d.toMin - 30) :
    schedule_task_reminder now (some s) t =
      (some (add_job s
        ⟨job_id_for_task (if t.id.truthy then t.id else t.mongoId),
          d.toMin - 30, t.user_email, t.user_whatsapp,
          t.title.getD "Untitled Task", format_dt (some d)⟩),
       [⟨.info, "[Scheduler] Reminder scheduled for task "
         ++ (if t.id.truthy then t.id else t.mongoId).render⟩]) := by
  unfold schedule_task_reminder
  rw [hd]
  simp [parse_deadline, htid, hfail, not_le.mpr hf]

/-- Missing-id path of `schedule_task_reminder`. -/
lemma schedule_missing_id (now : Int) (sched : Option SchedulerState)
    (t : TaskDict)
    (htid : (if t.id.truthy then t.id else t.mongoId).truthy = false) :
    schedule_task_reminder now sched t =
      (sched, [⟨.warning, "[Scheduler] Missing task_id; cannot schedule."⟩]) := by
  unfold schedule_task_reminder
  simp [htid]

/-- Missing/unparseable-deadline path of `schedule_task_reminder`. -/
lemma schedule_bad_deadline (now : Int) (sched : Option SchedulerState)
    (t : TaskDict)
    (htid : (if t.id.truthy then t.id else t.mongoId).truthy = true)
    (hd : parse_deadline t.deadline = Option.none) :
    schedule_task_reminder now sched t =
      (sched, [⟨.warning, "[Scheduler] No/invalid deadline for task "
        ++ (if t.id.truthy then t.id else t.mongoId).render ++ "; skipping."⟩]) := by
  unfold schedule_task_reminder
  simp [htid, hd]

/-- Past-window path of `schedule_task_reminder`. -/
lemma schedule_past_window (now : Int) (sched : Option SchedulerState)
    (t : TaskDict) (d : DT)
    (htid : (if t.id.truthy then t.id else t.mongoId).truthy = true)
    (hd : t.deadline = DeadlineInput.valid d)
    (hf : d.toMin - 30 ≤ now) :
    schedule_task_reminder now sched t =
      (sched, [⟨.warning, "[Scheduler] Reminder time already passed for task "
        ++ (if t.id.truthy then t.id else t.mongoId).render ++ "; skipping."⟩]) := by
  unfold schedule_task_reminder
  rw [hd]
  simp [parse_deadline, htid, hf]

/-- Backend-failure path of `schedule_task_reminder`. -/
lemma schedule_backend_failure (now : Int) (s : SchedulerState)
    (hfail : s.addFails = true) (t : TaskDict) (d : DT)
    (htid : (if t.id.truthy then t.id else t.mongoId).truthy = true)
    (hd : t.deadline = DeadlineInput.valid d)
    (hf : now < d.toMin - 30) :
    schedule_task_reminder now (some s) t =
      (some s, [⟨.error, "[Scheduler] Failed to add job for task "
        ++ (if t.id.truthy then t.id else t.mongoId).render⟩]) := by
  unfold schedule_task_reminder
  rw [hd]
  simp [parse_deadline, htid, hfail, not_le.mpr hf]

/-- Substring containment: `t` occurs inside `s`. -/
def strContains (s t : String) : Prop := ∃ a b : String, s = a ++ t ++ b

lemma fire_job_filter_self (env : Env) (s : SchedulerState) (jid : String) :
    ((fire_job env s jid).1.jobs.filter (fun j => j.jobId == jid)) = [] := by
  unfold fire_job
  cases h : s.jobs.find? (fun j => j.jobId == jid) with
  | none =>
    simp only
    apply List.filter_eq_nil_iff.mpr
    intro a ha
    have := List.find?_eq_none.mp h a ha
    simpa using this
  | some j =>
    simp only
    exact filter_eq_of_filter_ne _ _

lemma fire_job_of_find_none (env : Env) (s : SchedulerState) (jid : String)
    (h : s.jobs.find? (fun j => j.jobId == jid) = Option.none) :
    fire_job env s jid = (s, ⟨[], [], []⟩) := by
  unfold fire_job
  rw [h]

/- ------------------------------------------------------------------ -/
/- Claims                                                              -/
/- ------------------------------------------------------------------ -/

/-- C2: at most one live reminder job per task_id: for a task T and valid
future deadlines d1, d2, schedule(T, d1) followed by schedule(T, d2) leaves
exactly one pending job for T, whose fire time is d2 minus 30 minutes and
whose payload comes from the second call, never from d1. -/
theorem C2_at_most_one_job_per_task
    (now : Int) (s : SchedulerState) (hfail : s.addFails = false)
    (tid : PVal) (htid : tid.truthy = true)
    (t1 t2 : TaskDict) (hid1 : t1.id = tid) (hid2 : t2.id = tid)
    (d1 d2 : DT)
    (hd1 : t1.deadline = DeadlineInput.valid d1)
    (hd2 : t2.deadline = DeadlineInput.valid d2)
    (hf1 : now < d1.toMin - 30) (hf2 : now < d2.toMin - 30) :
    ∃ s2 : SchedulerState,
      (schedule_task_reminder now
        (schedule_task_reminder now (some s) t1).1 t2).1 = some s2 ∧
      s2.jobs.filter (fun j => j.jobId == job_id_for_task tid) =
        [⟨job_id_for_task tid, d2.toMin - 30, t2.user_email, t2.user_whatsapp,
          t2.title.getD "Untitled Task", format_dt (some d2)⟩] := by
  have e1 : (if t1.id.truthy then t1.id else t1.mongoId) = tid := by
    rw [hid1]
    simp [htid]
  have e2 : (if t2.id.truthy then t2.id else t2.mongoId) = tid := by
    rw [hid2]
    simp [htid]
  have htid1 : (if t1.id.truthy then t1.id else t1.mongoId).truthy = true := by
    rw [e1]; exact htid
  have htid2 : (if t2.id.truthy then t2.id else t2.mongoId).truthy = true := by
    rw [e2]; exact htid
  have h1 := schedule_success now s hfail t1 d1 htid1 hd1 hf1
  rw [e1] at h1
  rw [h1]
  dsimp only
  have hfail1 : (add_job s
      ⟨job_id_for_task tid, d1.toMin - 30, t1.user_email, t1.user_whatsapp,
        t1.title.getD "Untitled Task", format_dt (some d1)⟩).addFails = false := by
    rw [add_job_addFails]; exact hfail
  have h2 := schedule_success now _ hfail1 t2 d2 htid2 hd2 hf2
  rw [e2] at h2
  rw [h2]
  dsimp only
  exact ⟨_, rfl, add_job_filter_self _
    ⟨job_id_for_task tid, d2.toMin - 30, t2.user_email, t2.user_whatsapp,
      t2.title.getD "Untitled Task", format_dt (some d2)⟩⟩

/-- Witness for C2 at a concrete input. -/
theorem C2_at_most_one_job_per_task_witness :
    ∃ s2 : SchedulerState,
      (schedule_task_reminder 0
        (schedule_task_reminder 0 (some ⟨[], false⟩)
          ⟨PVal.int 1, PVal.none, some "A",
            DeadlineInput.valid ⟨2025, 1, 1, 1, 0⟩,
            Option.none, Option.none⟩).1
        ⟨PVal.int 1, PVal.none, some "B",
          DeadlineInput.valid ⟨2025, 1, 1, 2, 0⟩,
          Option.none, Option.none⟩).1 = some s2 ∧
      s2.jobs.filter (fun j => j.jobId == job_id_for_task (PVal.int 1)) =
        [⟨job_id_for_task (PVal.int 1), (DT.mk 2025 1 1 2 0).toMin - 30,
          Option.none, Option.none, "B",
          format_dt (some ⟨2025, 1, 1, 2, 0⟩)⟩] :=
  C2_at_most_one_job_per_task 0 ⟨[], false⟩ rfl (PVal.int 1) rfl
    ⟨PVal.int 1, PVal.none, some "A", DeadlineInput.valid ⟨2025, 1, 1, 1, 0⟩,
      Option.none, Option.none⟩
    ⟨PVal.int 1, PVal.none, some "B", DeadlineInput.valid ⟨2025, 1, 1, 2, 0⟩,
      Option.none, Option.none⟩
    rfl rfl ⟨2025, 1, 1, 1, 0⟩ ⟨2025, 1, 1, 2, 0⟩ rfl rfl
    (by decide) (by decide)

/-- C3: for a parseable deadline d the fire time is exactly d minus 30
minutes and a job is created if and only if that fire time is strictly
greater than now; when the fire time is at or before now the request is
dropped with a warning and zero jobs exist for that task. -/
theorem C3_fire_time_and_window
    (now : Int) (s : SchedulerState) (hfail : s.addFails = false)
    (t : TaskDict) (tid : PVal) (hid : t.id = tid) (htid : tid.truthy = true)
    (hfresh : pending_count_for s tid = 0)
    (d : DT) (hd : t.deadline = DeadlineInput.valid d) :
    (now < d.toMin - 30 →
      ∃ s1, (schedule_task_reminder now (some s) t).1 = some s1 ∧
        s1.jobs.filter (fun j => j.jobId == job_id_for_task tid) =
          [⟨job_id_for_task tid, d.toMin - 30, t.user_email, t.user_whatsapp,
            t.title.getD "Untitled Task", format_dt (some d)⟩]) ∧
    (d.toMin - 30 ≤ now →
      (schedule_task_reminder now (some s) t).1 = some s ∧
      pending_count_for s tid = 0 ∧
      (schedule_task_reminder now (some s) t).2 =
        [⟨.warning, "[Scheduler] Reminder time already passed for task "
          ++ tid.render ++ "; skipping."⟩]) := by
  have e : (if t.id.truthy then t.id else t.mongoId) = tid := by
    rw [hid]
    simp [htid]
  have htid1 : (if t.id.truthy then t.id else t.mongoId).truthy = true := by
    rw [e]; exact htid
  constructor
  · intro hf
    have h1 := schedule_success now s hfail t d htid1 hd hf
    rw [e] at h1
    rw [h1]
    exact ⟨_, rfl, add_job_filter_self _
      ⟨job_id_for_task tid, d.toMin - 30, t.user_email, t.user_whatsapp,
        t.title.getD "Untitled Task", format_dt (some d)⟩⟩
  · intro hf
    have h1 := schedule_past_window now (some s) t d htid1 hd hf
    rw [e] at h1
    rw [h1]
    exact ⟨rfl, hfresh, rfl⟩

/-- Witness for C3 at a concrete input. -/
theorem C3_fire_time_and_window_witness :
    ((DT.mk 2025 1 1 1 0).toMin <
        (DT.mk 2025 1 1 2 0 : DT).toMin - 30 →
      ∃ s1, (schedule_task_reminder (DT.mk 2025 1 1 1 0).toMin
          (some ⟨[], false⟩)
          ⟨PVal.int 3, PVal.none, some "C",
            DeadlineInput.valid ⟨2025, 1, 1, 2, 0⟩, Option.none,
            Option.none⟩).1 = some s1 ∧
        s1.jobs.filter (fun j => j.jobId == job_id_for_task (PVal.int 3)) =
          [⟨job_id_for_task (PVal.int 3),
            (DT.mk 2025 1 1 2 0 : DT).toMin - 30, Option.none, Option.none,
            "C", format_dt (some ⟨2025, 1, 1, 2, 0⟩)⟩]) ∧
    ((DT.mk 2025 1 1 2 0 : DT).toMin - 30 ≤ (DT.mk 2025 1 1 1 0).toMin →
      (schedule_task_reminder (DT.mk 2025 1 1 1 0).toMin (some ⟨[], false⟩)
        ⟨PVal.int 3, PVal.none, some "C",
          DeadlineInput.valid ⟨2025, 1, 1, 2, 0⟩, Option.none,
          Option.none⟩).1 = some ⟨[], false⟩ ∧
      pending_count_for ⟨[], false⟩ (PVal.int 3) = 0 ∧
      (schedule_task_reminder (DT.mk 2025 1 1 1 0).toMin (some ⟨[], false⟩)
        ⟨PVal.int 3, PVal.none, some "C",
          DeadlineInput.valid ⟨2025, 1, 1, 2, 0⟩, Option.none,
          Option.none⟩).2 =
        [⟨.warning, "[Scheduler] Reminder time already passed for task "
          ++ (PVal.int 3).render ++ "; skipping."⟩]) :=
  C3_fire_time_and_window (DT.mk 2025 1 1 1 0).toMin ⟨[], false⟩ rfl
    ⟨PVal.int 3, PVal.none, some "C", DeadlineInput.valid ⟨2025, 1, 1, 2, 0⟩,
      Option.none, Option.none⟩
    (PVal.int 3) rfl rfl rfl ⟨2025, 1, 1, 2, 0⟩ rfl

/-- C4: schedule returns normally for every input: missing task id,
missing/unparseable deadline, deadline already past the reminder window, and
a timer-backend failure on insertion; in the caller-input-error cases the
scheduler state is unchanged and a warning is logged, in the backend-failure
case an error is logged. (The embedded function is total, which is the
shallow rendering of "never raises to the caller".) -/
theorem C4_schedule_absorbs_all_errors
    (now : Int) (sched : Option SchedulerState) (t : TaskDict) :
    ((if t.id.truthy then t.id else t.mongoId).truthy = false →
      schedule_task_reminder now sched t =
        (sched, [⟨.warning, "[Scheduler] Missing task_id; cannot schedule."⟩])) ∧
    ((if t.id.truthy then t.id else t.mongoId).truthy = true →
      parse_deadline t.deadline = Option.none →
      schedule_task_reminder now sched t =
        (sched, [⟨.warning, "[Scheduler] No/invalid deadline for task "
          ++ (if t.id.truthy then t.id else t.mongoId).render
          ++ "; skipping."⟩])) ∧
    (∀ d : DT, (if t.id.truthy then t.id else t.mongoId).truthy = true →
      t.deadline = DeadlineInput.valid d → d.toMin - 30 ≤ now →
      schedule_task_reminder now sched t =
        (sched, [⟨.warning, "[Scheduler] Reminder time already passed for task "
          ++ (if t.id.truthy then t.id else t.mongoId).render
          ++ "; skipping."⟩])) ∧
    (∀ (s : SchedulerState) (d : DT), sched = some s → s.addFails = true →
      (if t.id.truthy then t.id else t.mongoId).truthy = true →
      t.deadline = DeadlineInput.valid d → now < d.toMin - 30 →
      schedule_task_reminder now sched t =
        (some s, [⟨.error, "[Scheduler] Failed to add job for task "
          ++ (if t.id.truthy then t.id else t.mongoId).render⟩])) := by
  refine ⟨?_, ?_, ?_, ?_⟩
  · intro h
    exact schedule_missing_id now sched t h
  · intro h hd
    exact schedule_bad_deadline now sched t h hd
  · intro d h hd hf
    exact schedule_past_window now sched t d h hd hf
  · intro s d hs hfail h hd hf
    rw [hs]
    exact schedule_backend_failure now s hfail t d h hd hf

/-- Witness for C4 at a concrete input (missing task id). -/
theorem C4_schedule_absorbs_all_errors_witness :
    schedule_task_reminder 0 (some ⟨[], false⟩)
        ⟨PVal.none, PVal.none, Option.none, DeadlineInput.none,
          Option.none, Option.none⟩ =
      (some ⟨[], false⟩,
        [⟨.warning, "[Scheduler] Missing task_id; cannot schedule."⟩]) :=
  (C4_schedule_absorbs_all_errors 0 (some ⟨[], false⟩)
      ⟨PVal.none, PVal.none, Option.none, DeadlineInput.none,
        Option.none, Option.none⟩).1 rfl

/-- C5: when a job fires with both recipients present each collaborator is
invoked exactly once, whatever combination of the two collaborators raises
(the exception of one channel is caught and does not prevent the other); a
channel whose recipient is absent is not invoked. The dispatch function is
total, which is the shallow rendering of "never propagates an exception". -/
theorem C5_channel_independence
    (env : Env) (hsup : env.mailSuppressSend = false)
    (hwa : env.whatsappServiceAvailable = true)
    (e w : String) (he : e ≠ "") (hw : w ≠ "")
    (title dstr : String) :
    ((reminder_job env (some e) (some w) title dstr).emailSends.length = 1 ∧
     (reminder_job env (some e) (some w) title dstr).whatsappSends.length = 1) ∧
    (reminder_job env Option.none (some w) title dstr).emailSends = [] ∧
    (reminder_job env (some e) Option.none title dstr).whatsappSends = [] := by
  have he' : (e == "") = false := beq_eq_false_iff_ne.mpr he
  have hw' : (w == "") = false := beq_eq_false_iff_ne.mpr hw
  rcases env with ⟨er, wr, ms, wav⟩
  simp only at hsup hwa
  subst hsup hwa
  cases er <;> cases wr <;>
    simp [reminder_job, send_email, send_whatsapp, he', hw']

/-- Witness for C5 at a concrete input. -/
theorem C5_channel_independence_witness :
    ((reminder_job ⟨true, false, false, true⟩ (some "u@x.com")
        (some "+911234567890") "T1" "10-01-2025 09:00 PM").emailSends.length = 1 ∧
     (reminder_job ⟨true, false, false, true⟩ (some "u@x.com")
        (some "+911234567890") "T1" "10-01-2025 09:00 PM").whatsappSends.length = 1) ∧
    (reminder_job ⟨true, false, false, true⟩ Option.none
        (some "+911234567890") "T1" "10-01-2025 09:00 PM").emailSends = [] ∧
    (reminder_job ⟨true, false, false, true⟩ (some "u@x.com")
        Option.none "T1" "10-01-2025 09:00 PM").whatsappSends = [] :=
  C5_channel_independence ⟨true, false, false, true⟩ rfl rfl
    "u@x.com" "+911234567890" (by decide) (by decide)
    "T1" "10-01-2025 09:00 PM"

/-- C6: every scheduled job fires at most once: once dispatch runs the job is
removed from the job store regardless of the dispatch outcome (the
environment, including a raising collaborator, is universally quantified), the
pending count for the task returns to zero, and a second firing of the same
job id dispatches nothing and changes nothing. -/
theorem C6_fire_then_vanish (env : Env) (s : SchedulerState) (tid : PVal) :
    pending_count_for (fire_job env s (job_id_for_task tid)).1 tid = 0 ∧
    (fire_job env (fire_job env s (job_id_for_task tid)).1
      (job_id_for_task tid)).2 = ⟨[], [], []⟩ ∧
    (fire_job env (fire_job env s (job_id_for_task tid)).1
      (job_id_for_task tid)).1 = (fire_job env s (job_id_for_task tid)).1 := by
  have h0 := fire_job_filter_self env s (job_id_for_task tid)
  have hfind : ((fire_job env s (job_id_for_task tid)).1.jobs.find?
      (fun j => j.jobId == job_id_for_task tid)) = Option.none := by
    apply List.find?_eq_none.mpr
    intro a ha
    intro hcontra
    have : a ∈ (fire_job env s (job_id_for_task tid)).1.jobs.filter
        (fun j => j.jobId == job_id_for_task tid) :=
      List.mem_filter.mpr ⟨ha, hcontra⟩
    rw [h0] at this
    exact absurd this (List.not_mem_nil a)
  refine ⟨?_, ?_, ?_⟩
  · unfold pending_count_for
    rw [h0]
    rfl
  · rw [fire_job_of_find_none env _ _ hfind]
  · rw [fire_job_of_find_none env _ _ hfind]

/-- C7: cancel never raises: when the scheduler was never started the call
returns at once; otherwise the job for the task id is removed when present
and the call is a no-op when absent (the lookup error is swallowed), and jobs
of every other task id are unaffected. -/
theorem C7_cancel_never_raises
    (sched : Option SchedulerState) (tid other : PVal) :
    (sched = Option.none →
      remove_task_reminder sched tid = (Option.none, [])) ∧
    (∀ s : SchedulerState, sched = some s →
      ∃ s', (remove_task_reminder sched tid).1 = some s' ∧
        s'.jobs = s.jobs.filter (fun j => j.jobId != job_id_for_task tid) ∧
        s'.addFails = s.addFails ∧
        (job_id_for_task other ≠ job_id_for_task tid →
          s'.jobs.filter (fun j => j.jobId == job_id_for_task other) =
            s.jobs.filter (fun j => j.jobId == job_id_for_task other))) := by
  constructor
  · intro h
    subst h
    rfl
  · intro s hs
    subst hs
    by_cases hany : s.jobs.any (fun j => j.jobId == job_id_for_task tid) = true
    · have hr : remove_task_reminder (some s) tid =
          (some ⟨s.jobs.filter (fun j => j.jobId != job_id_for_task tid),
            s.addFails⟩,
           [⟨.info, "[Scheduler] Removed job " ++ job_id_for_task tid⟩]) := by
        simp [remove_task_reminder, hany]
      rw [hr]
      exact ⟨_, rfl, rfl, rfl,
        fun hne => filter_ne_filter_eq_comm _ _ hne _⟩
    · have hr : remove_task_reminder (some s) tid = (some s, []) := by
        simp [remove_task_reminder, hany]
      rw [hr]
      have hself :=
        filter_ne_of_not_any (job_id_for_task tid) s.jobs
          (Bool.eq_false_iff.mpr hany)
      refine ⟨s, rfl, hself.symm, rfl, fun _ => rfl⟩

/-- Witness for C7 at a concrete input: cancelling a nonexistent task over a
store holding a job for task 2. -/
theorem C7_cancel_never_raises_witness :
    ((some ⟨[⟨"reminder_task_2", 100, Option.none, Option.none, "B", "x"⟩],
        false⟩ : Option SchedulerState) = Option.none →
      remove_task_reminder
        (some ⟨[⟨"reminder_task_2", 100, Option.none, Option.none, "B", "x"⟩],
          false⟩) (PVal.str "nonexistent") = (Option.none, [])) ∧
    (∀ s : SchedulerState,
      (some ⟨[⟨"reminder_task_2", 100, Option.none, Option.none, "B", "x"⟩],
        false⟩ : Option SchedulerState) = some s →
      ∃ s', (remove_task_reminder
          (some ⟨[⟨"reminder_task_2", 100, Option.none, Option.none, "B", "x"⟩],
            false⟩) (PVal.str "nonexistent")).1 = some s' ∧
        s'.jobs = s.jobs.filter
          (fun j => j.jobId != job_id_for_task (PVal.str "nonexistent")) ∧
        s'.addFails = s.addFails ∧
        (job_id_for_task (PVal.int 2) ≠ job_id_for_task (PVal.str "nonexistent") →
          s'.jobs.filter (fun j => j.jobId == job_id_for_task (PVal.int 2)) =
            s.jobs.filter (fun j => j.jobId == job_id_for_task (PVal.int 2)))) :=
  C7_cancel_never_raises
    (some ⟨[⟨"reminder_task_2", 100, Option.none, Option.none, "B", "x"⟩],
      false⟩) (PVal.str "nonexistent") (PVal.int 2)

/-- C8 counterexample: the status operation does not report the number of
live jobs. Concretely: at 2025-01-01T00:00 a task with deadline
2025-01-02T06:00 (30 hours away) is successfully scheduled, so the job store
holds one live job, yet the status record reports a count of 0 (its
`jobs_count_hint` scans tasks due within 24 hours and there is no
`pending_count` field at all). -/
theorem C8_counterexample :
    (get_scheduler_status (DT.mk 2025 1 1 0 0).toMin
        [⟨some (DT.mk 2025 1 2 6 0).toMin, "pending"⟩]).jobs_count_hint = 0 ∧
    (schedule_task_reminder (DT.mk 2025 1 1 0 0).toMin (some ⟨[], false⟩)
        ⟨PVal.int 1, PVal.none, some "T",
          DeadlineInput.valid ⟨2025, 1, 2, 6, 0⟩, some "u@x.com",
          Option.none⟩).1 =
      some ⟨[⟨"reminder_task_1", (DT.mk 2025 1 2 6 0 : DT).toMin - 30,
        some "u@x.com", Option.none, "T",
        format_dt (some ⟨2025, 1, 2, 6, 0⟩)⟩], false⟩ ∧
    pending_count ⟨[⟨"reminder_task_1", (DT.mk 2025 1 2 6 0 : DT).toMin - 30,
        some "u@x.com", Option.none, "T",
        format_dt (some ⟨2025, 1, 2, 6, 0⟩)⟩], false⟩ = 1 ∧
    (get_scheduler_status (DT.mk 2025 1 1 0 0).toMin
        [⟨some (DT.mk 2025 1 2 6 0).toMin, "pending"⟩]).jobs_count_hint ≠
      pending_count ⟨[⟨"reminder_task_1",
        (DT.mk 2025 1 2 6 0 : DT).toMin - 30, some "u@x.com", Option.none,
        "T", format_dt (some ⟨2025, 1, 2, 6, 0⟩)⟩], false⟩ := by
  refine ⟨by decide, by decide, by decide, by decide⟩

/-- C8 (amended): the status record has `running` constantly true and a
`jobs_count_hint` field (not `pending_count`) counting the non-completed
tasks whose datetime deadline lies within the next 24 hours, computed from
the task table alone; the health endpoint surfaces exactly this record. The
job-store pending count for a task is 1 after one successful schedule and 0
after that job fires, but the status record does not report it. -/
theorem C8_status_reports_task_hint
    (now : Int) (tasks : List TaskRec) (env : Env)
    (s : SchedulerState) (hfail : s.addFails = false)
    (t : TaskDict) (tid : PVal) (hid : t.id = tid) (htid : tid.truthy = true)
    (d : DT) (hd : t.deadline = DeadlineInput.valid d)
    (hf : now < d.toMin - 30) :
    (get_scheduler_status now tasks).running = true ∧
    (get_scheduler_status now tasks).jobs_count_hint =
      (tasks.filter (fun tr =>
        match tr.deadline with
        | some dd => decide (now < dd) && decide (dd ≤ now + 1440)
            && (tr.status != "completed")
        | Option.none => false)).length ∧
    (health_check now tasks).1.scheduler_status = get_scheduler_status now tasks ∧
    ∃ s1, (schedule_task_reminder now (some s) t).1 = some s1 ∧
      pending_count_for s1 tid = 1 ∧
      pending_count_for (fire_job env s1 (job_id_for_task tid)).1 tid = 0 := by
  have e : (if t.id.truthy then t.id else t.mongoId) = tid := by
    rw [hid]
    simp [htid]
  have htid1 : (if t.id.truthy then t.id else t.mongoId).truthy = true := by
    rw [e]; exact htid
  have h1 := schedule_success now s hfail t d htid1 hd hf
  rw [e] at h1
  refine ⟨rfl, rfl, rfl, ?_⟩
  rw [h1]
  refine ⟨_, rfl, ?_, ?_⟩
  · unfold pending_count_for
    rw [add_job_filter_self s
      ⟨job_id_for_task tid, d.toMin - 30, t.user_email, t.user_whatsapp,
        t.title.getD "Untitled Task", format_dt (some d)⟩]
    rfl
  · unfold pending_count_for
    rw [fire_job_filter_self]
    rfl

/-- Witness for the amended C8 at a concrete input. -/
theorem C8_status_reports_task_hint_witness :
    (get_scheduler_status 0 []).running = true ∧
    (get_scheduler_status 0 []).jobs_count_hint =
      (([] : List TaskRec).filter (fun tr =>
        match tr.deadline with
        | some dd => decide ((0 : Int) < dd) && decide (dd ≤ 0 + 1440)
            && (tr.status != "completed")
        | Option.none => false)).length ∧
    (health_check 0 []).1.scheduler_status = get_scheduler_status 0 [] ∧
    ∃ s1, (schedule_task_reminder 0 (some ⟨[], false⟩)
        ⟨PVal.int 9, PVal.none, some "H",
          DeadlineInput.valid ⟨2025, 1, 1, 1, 0⟩, Option.none,
          Option.none⟩).1 = some s1 ∧
      pending_count_for s1 (PVal.int 9) = 1 ∧
      pending_count_for
        (fire_job ⟨true, true, false, true⟩ s1
          (job_id_for_task (PVal.int 9))).1 (PVal.int 9) = 0 :=
  C8_status_reports_task_hint 0 [] ⟨true, true, false, true⟩ ⟨[], false⟩ rfl
    ⟨PVal.int 9, PVal.none, some "H", DeadlineInput.valid ⟨2025, 1, 1, 1, 0⟩,
      Option.none, Option.none⟩
    (PVal.int 9) rfl rfl ⟨2025, 1, 1, 1, 0⟩ rfl (by decide)

/-- C9: for a task with deadline 2025-01-10T21:00:00 scheduled at
2025-01-10T10:00:00 the fire time is 2025-01-10T20:30:00, and when the job
fires both collaborators receive the task title together with a deadline
string formatted day-month-year with 12-hour time, containing "10-01-2025"
and "09:00 PM". -/
theorem C9_concrete_scenario :
    (DT.mk 2025 1 10 21 0 : DT).toMin - 30 = (DT.mk 2025 1 10 20 30).toMin ∧
    format_dt (some ⟨2025, 1, 10, 21, 0⟩) = "10-01-2025 09:00 PM" ∧
    (schedule_task_reminder (DT.mk 2025 1 10 10 0).toMin (some ⟨[], false⟩)
        ⟨PVal.int 1, PVal.none, some "T1",
          DeadlineInput.valid ⟨2025, 1, 10, 21, 0⟩, some "user@example.com",
          some "+911234567890"⟩).1 =
      some ⟨[⟨"reminder_task_1", (DT.mk 2025 1 10 20 30 : DT).toMin,
        some "user@example.com", some "+911234567890", "T1",
        "10-01-2025 09:00 PM"⟩], false⟩ ∧
    (fire_job ⟨false, false, false, true⟩
        ⟨[⟨"reminder_task_1", (DT.mk 2025 1 10 20 30 : DT).toMin,
          some "user@example.com", some "+911234567890", "T1",
          "10-01-2025 09:00 PM"⟩], false⟩ "reminder_task_1").2.emailSends =
      [("user@example.com", "⏰ Task Reminder: T1",
        "Reminder: Your task \x27T1\x27 is due at 10-01-2025 09:00 PM.")] ∧
    (fire_job ⟨false, false, false, true⟩
        ⟨[⟨"reminder_task_1", (DT.mk 2025 1 10 20 30 : DT).toMin,
          some "user@example.com", some "+911234567890", "T1",
          "10-01-2025 09:00 PM"⟩], false⟩ "reminder_task_1").2.whatsappSends =
      [("+911234567890",
        "⏰ *Task Reminder*\n\n*Title:* T1\n*Due:* 10-01-2025 09:00 PM")] ∧
    strContains "Reminder: Your task \x27T1\x27 is due at 10-01-2025 09:00 PM."
      "T1" ∧
    strContains "Reminder: Your task \x27T1\x27 is due at 10-01-2025 09:00 PM."
      "10-01-2025" ∧
    strContains "Reminder: Your task \x27T1\x27 is due at 10-01-2025 09:00 PM."
      "09:00 PM" ∧
    strContains "⏰ *Task Reminder*\n\n*Title:* T1\n*Due:* 10-01-2025 09:00 PM"
      "T1" ∧
    strContains "⏰ *Task Reminder*\n\n*Title:* T1\n*Due:* 10-01-2025 09:00 PM"
      "10-01-2025" ∧
    strContains "⏰ *Task Reminder*\n\n*Title:* T1\n*Due:* 10-01-2025 09:00 PM"
      "09:00 PM" := by
  refine ⟨by decide, by decide, by decide, by decide, by decide,
    ⟨"Reminder: Your task \x27", "\x27 is due at 10-01-2025 09:00 PM.",
      by decide⟩,
    ⟨"Reminder: Your task \x27T1\x27 is due at ", " 09:00 PM.", by decide⟩,
    ⟨"Reminder: Your task \x27T1\x27 is due at 10-01-2025 ", ".", by decide⟩,
    ⟨"⏰ *Task Reminder*\n\n*Title:* ", "\n*Due:* 10-01-2025 09:00 PM",
      by decide⟩,
    ⟨"⏰ *Task Reminder*\n\n*Title:* T1\n*Due:* ", " 09:00 PM", by decide⟩,
    ⟨"⏰ *Task Reminder*\n\n*Title:* T1\n*Due:* 10-01-2025 ", "", by decide⟩⟩

/-- C10 counterexample: a task payload whose "id" field is 0 but whose "_id"
field is 7, with a valid future deadline, does get a job created (under the
"_id" value), contradicting the claim that no job is created for every
payload whose id is 0. -/
theorem C10_counterexample :
    (schedule_task_reminder 0 (some ⟨[], false⟩)
        ⟨PVal.int 0, PVal.int 7, some "X",
          DeadlineInput.valid ⟨2025, 1, 10, 21, 0⟩, Option.none,
          Option.none⟩).1 =
      some ⟨[⟨"reminder_task_7", (DT.mk 2025 1 10 21 0 : DT).toMin - 30,
        Option.none, Option.none, "X",
        format_dt (some ⟨2025, 1, 10, 21, 0⟩)⟩], false⟩ ∧
    pending_count ⟨[⟨"reminder_task_7",
      (DT.mk 2025 1 10 21 0 : DT).toMin - 30, Option.none, Option.none, "X",
      format_dt (some ⟨2025, 1, 10, 21, 0⟩)⟩], false⟩ = 1 := by
  refine ⟨by decide, by decide⟩

/-- C10 (amended): schedule treats the task identifier as absent only when
both the "id" and the "_id" fields are falsy (0, empty string, None or
missing); in that case, even with a valid future deadline, no job is created,
the scheduler state is untouched and only a warning is logged — so a task
whose only identifier is 0 (with no "_id" fallback) can never receive a
reminder. A falsy "id" with a truthy "_id" is scheduled under "_id". -/
theorem C10_falsy_id_needs_falsy_mongo_id
    (now : Int) (sched : Option SchedulerState) (t : TaskDict)
    (h1 : t.id.truthy = false) (h2 : t.mongoId.truthy = false) :
    schedule_task_reminder now sched t =
      (sched, [⟨.warning, "[Scheduler] Missing task_id; cannot schedule."⟩]) := by
  apply schedule_missing_id
  rw [h1]
  simpa using h2

/-- Witness for the amended C10 at a concrete input: id 0, no "_id", valid
future deadline. -/
theorem C10_falsy_id_needs_falsy_mongo_id_witness :
    schedule_task_reminder 0 (some ⟨[], false⟩)
        ⟨PVal.int 0, PVal.none, some "X",
          DeadlineInput.valid ⟨2025, 1, 10, 21, 0⟩, Option.none,
          Option.none⟩ =
      (some ⟨[], false⟩,
        [⟨.warning, "[Scheduler] Missing task_id; cannot schedule."⟩]) :=
  C10_falsy_id_needs_falsy_mongo_id 0 (some ⟨[], false⟩)
    ⟨PVal.int 0, PVal.none, some "X",
      DeadlineInput.valid ⟨2025, 1, 10, 21, 0⟩, Option.none, Option.none⟩
    rfl rfl

/-- C1: the spec requires task delete, status change to completed, and
deadline clearing to cancel the pending reminder job; the routes never call
remove_task_reminder on any path, so the job survives all three operations.
This theorem evaluates the embedded routes at a concrete failing input: a
task with a pending reminder job is deleted (HTTP 200, task gone), updated
to completed, and updated with a cleared deadline — and in every case the
reminder job is still pending afterwards. -/
theorem C1_routes_never_cancel_reminder :
    (delete_task
        ⟨[⟨1, 1, "T", "", "medium", "general", "pending",
            some ⟨2025, 1, 10, 21, 0⟩⟩],
          [⟨1, some "u@x.com", Option.none⟩],
          some ⟨[⟨"reminder_task_1", (DT.mk 2025 1 10 21 0 : DT).toMin - 30,
            some "u@x.com", Option.none, "T", "10-01-2025 09:00 PM"⟩],
            false⟩⟩ 1 1).2 = 200 ∧
    (delete_task
        ⟨[⟨1, 1, "T", "", "medium", "general", "pending",
            some ⟨2025, 1, 10, 21, 0⟩⟩],
          [⟨1, some "u@x.com", Option.none⟩],
          some ⟨[⟨"reminder_task_1", (DT.mk 2025 1 10 21 0 : DT).toMin - 30,
            some "u@x.com", Option.none, "T", "10-01-2025 09:00 PM"⟩],
            false⟩⟩ 1 1).1.tasks = [] ∧
    (delete_task
        ⟨[⟨1, 1, "T", "", "medium", "general", "pending",
            some ⟨2025, 1, 10, 21, 0⟩⟩],
          [⟨1, some "u@x.com", Option.none⟩],
          some ⟨[⟨"reminder_task_1", (DT.mk 2025 1 10 21 0 : DT).toMin - 30,
            some "u@x.com", Option.none, "T", "10-01-2025 09:00 PM"⟩],
            false⟩⟩ 1 1).1.sched =
      some ⟨[⟨"reminder_task_1", (DT.mk 2025 1 10 21 0 : DT).toMin - 30,
        some "u@x.com", Option.none, "T", "10-01-2025 09:00 PM"⟩], false⟩ ∧
    pending_count_for
      ⟨[⟨"reminder_task_1", (DT.mk 2025 1 10 21 0 : DT).toMin - 30,
        some "u@x.com", Option.none, "T", "10-01-2025 09:00 PM"⟩], false⟩
      (PVal.int 1) = 1 ∧
    (update_task 0
        ⟨[⟨1, 1, "T", "", "medium", "general", "pending",
            some ⟨2025, 1, 10, 21, 0⟩⟩],
          [⟨1, some "u@x.com", Option.none⟩],
          some ⟨[⟨"reminder_task_1", (DT.mk 2025 1 10 21 0 : DT).toMin - 30,
            some "u@x.com", Option.none, "T", "10-01-2025 09:00 PM"⟩],
            false⟩⟩ 1 1
        ⟨Option.none, Option.none, Option.none, Option.none,
          some "completed", Option.none⟩).1.sched =
      some ⟨[⟨"reminder_task_1", (DT.mk 2025 1 10 21 0 : DT).toMin - 30,
        some "u@x.com", Option.none, "T", "10-01-2025 09:00 PM"⟩], false⟩ ∧
    (update_task 0
        ⟨[⟨1, 1, "T", "", "medium", "general", "pending",
            some ⟨2025, 1, 10, 21, 0⟩⟩],
          [⟨1, some "u@x.com", Option.none⟩],
          some ⟨[⟨"reminder_task_1", (DT.mk 2025 1 10 21 0 : DT).toMin - 30,
            some "u@x.com", Option.none, "T", "10-01-2025 09:00 PM"⟩],
            false⟩⟩ 1 1
        ⟨Option.none, Option.none, Option.none, Option.none,
          Option.none, some DeadlineInput.none⟩).1.sched =
      some ⟨[⟨"reminder_task_1", (DT.mk 2025 1 10 21 0 : DT).toMin - 30,
        some "u@x.com", Option.none, "T", "10-01-2025 09:00 PM"⟩], false⟩ := by
  refine ⟨by decide, by decide, by decide, by decide, by decide, by decide⟩

end TaskManager
